import Mathlib

/-!
Shallow embedding of the Restaurant ordering backend (src/server.js,
src/SOCKET.IO, src/unnamed/part_000).

The repository ships two variants of the payment-verification route
`POST /api/payment/verify`:

* `src/SOCKET.IO` — builds the order from the spread client payload, then
  overrides `reference`, `totalAmount = paymentData.amount / 100` and
  `status = "paid"`, emits a `"newOrder"` socket event with a summary, and
  calls `sendNewOrderNotification` (src/unnamed/part_000), which catches
  every error internally.
* `src/server.js` — requires both `reference` and `orderData`, stores the
  client-supplied `totalAmount`, passes `paymentStatus: "Paid"` (not a path
  of `orderSchema`; the schema field `status` keeps its default
  `"pending"`), wraps the SMS and push calls in their own try/catch
  blocks, and only emits (event name `"new-order"`) when `global.io` is
  set — which no line of the file ever sets.

Stateful behaviour (the MongoDB collection, socket sessions, outcomes of
the external HTTP calls) is made explicit: the store is a list of orders,
the gateway outcome and the notification outcomes are oracle parameters,
and each handler is a pure function returning the HTTP response together
with the post-state and the emitted socket events.  JS falsiness of the
string inputs (`!reference`) and of numeric `o.totalAmount || 0` is
modelled where the source relies on it.  Amounts are rationals because JS
`/` is exact real division on these values (`paymentData.amount` is an
integer number of minor units).
-/

namespace Restaurant

/-- JS truthiness of an optional string value: `undefined` and `""` are
falsy, every other string is truthy. -/
def strTruthy : Option String → Bool
  | none => false
  | some s => s != ""

/-- ASCII lowering of one character, the fragment of JS
`String.prototype.toLowerCase` exercised by the status strings. -/
def lowerChar (c : Char) : Char :=
  if 'A' ≤ c && c ≤ 'Z' then Char.ofNat (c.toNat + 32) else c

/-- JS `s.toLowerCase()` on ASCII data. -/
def jsToLower (s : String) : String := ⟨s.data.map lowerChar⟩

/-- Client order payload (`orderData` of the request body, §6 of the spec:
`{name,email,phone,address,junction,items,totalAmount}`). -/
structure OrderData where
  name : String
  email : String
  phone : String
  address : String
  junction : String
  items : List String
  totalAmount : ℚ
deriving DecidableEq, Repr

/-- Persisted order document (the `orderSchema` of src/server.js).
`paymentStatus` and `paymentChannel` appear in the server.js constructor
call but are not schema paths; they are carried here so the constructor
call can be translated verbatim. -/
structure Order where
  name : Option String
  email : Option String
  phone : Option String
  address : Option String
  junction : Option String
  items : List String
  totalAmount : Option ℚ
  reference : String
  status : String
  createdAt : Nat
  dispatchedAt : Option Nat
  deliveredAt : Option Nat
  paymentStatus : Option String
  paymentChannel : Option String
deriving DecidableEq, Repr

/-- Body of the Paystack verification response: `verifyRes.data.data`. -/
structure PaymentData where
  status : String
  amount : ℤ
  channel : String
  customerEmail : String
deriving DecidableEq, Repr

/-- Top level of the Paystack verification body: `verifyRes.data`, with its
boolean `status` flag and the nested `data` object (possibly null). -/
structure VerifyResponse where
  status : Bool
  data : Option PaymentData
deriving DecidableEq, Repr

/-- Outcome of the axios GET to the gateway: a thrown network error, a
response with a missing body, or a response body. -/
inductive GatewayResult where
  | err : GatewayResult
  | ok : Option VerifyResponse → GatewayResult
deriving DecidableEq, Repr

/-- Payload of a socket.io event emitted by this backend. -/
inductive EventPayload where
  /-- Summary object of src/SOCKET.IO's `io.emit("newOrder", ...)`:
  customer, totalAmount, reference, createdAt, status. -/
  | orderSummary (customer : Option String) (totalAmount : Option ℚ)
      (reference : String) (createdAt : Nat) (status : String) : EventPayload
  /-- Summary object of src/server.js's `notifyAdminsNewOrder`:
  orderId, customer, amount, status, createdAt. -/
  | adminSummary (orderId : String) (customer : Option String)
      (amount : Option ℚ) (status : String) (createdAt : Nat) : EventPayload
  /-- Whole order document, as emitted by src/server.js's guarded
  `global.io.emit("new-order", order)`. -/
  | fullOrder (o : Order) : EventPayload
deriving DecidableEq, Repr

/-- One emitted socket.io event: event name plus payload. -/
structure SocketEvent where
  name : String
  payload : EventPayload
deriving DecidableEq, Repr

/-- `io.emit` delivers each emitted event to every currently connected
session (socket.io broadcast); sessions are identified by numbers. -/
def deliveries (sessions : List Nat) (events : List SocketEvent) :
    List (Nat × SocketEvent) :=
  sessions.flatMap fun s => events.map fun e => (s, e)

/-- Result of one run of a payment-verification handler: HTTP status code,
the `success` field of the JSON response, the post-state of the order
collection, the emitted socket events, and which external calls were
attempted / succeeded. -/
structure VerifyResult where
  status : Nat
  success : Bool
  store : List Order
  events : List SocketEvent
  gatewayCalled : Bool
  smsAttempted : Bool
  smsSent : Bool
  pushAttempted : Bool
  pushSent : Bool
deriving DecidableEq, Repr

/-- Rejection result: no store change, no events, no notifications. -/
def reject (code : Nat) (store : List Order) (gatewayCalled : Bool) :
    VerifyResult :=
  ⟨code, false, store, [], gatewayCalled, false, false, false, false⟩

/-- Order document built by src/SOCKET.IO on payment success:
`new Order({ ...orderData, reference, totalAmount: paymentData.amount / 100,
status: "paid" })`.  A missing `orderData` spreads to nothing, leaving the
customer fields unset and `items` at the schema's empty-array default;
`createdAt` takes the schema default (current time). -/
def socketOrder (od : Option OrderData) (ref : String) (amount : ℤ)
    (now : Nat) : Order :=
  { name := od.map (·.name)
  , email := od.map (·.email)
  , phone := od.map (·.phone)
  , address := od.map (·.address)
  , junction := od.map (·.junction)
  , items := (od.map (·.items)).getD []
  , totalAmount := some ((amount : ℚ) / 100)
  , reference := ref
  , status := "paid"
  , createdAt := now
  , dispatchedAt := none
  , deliveredAt := none
  , paymentStatus := none
  , paymentChannel := none }

/-- Order document built by src/server.js on payment success.  The
constructor passes the client's `totalAmount`, `paymentStatus: "Paid"` and
`paymentChannel`, and never passes `status`, so `status` keeps the schema
default `"pending"`. -/
def serverOrder (od : OrderData) (ref : String) (channel : String)
    (now : Nat) : Order :=
  { name := some od.name
  , email := some od.email
  , phone := some od.phone
  , address := some od.address
  , junction := some od.junction
  , items := od.items
  , totalAmount := some od.totalAmount
  , reference := ref
  , status := "pending"
  , createdAt := now
  , dispatchedAt := none
  , deliveredAt := none
  , paymentStatus := some "Paid"
  , paymentChannel := some channel }

/-- `POST /api/payment/verify` of src/SOCKET.IO.  Validates only
`reference`; a thrown axios error or a missing response body hits the
outer catch (500); a null `verifyRes.data.data` is rejected with 400;
on `paymentData.status === "success"` the order is saved, the push
notification is attempted (`sendNewOrderNotification` of
src/unnamed/part_000 catches every error internally, so `pushOk` never
alters control flow), the `"newOrder"` summary event is emitted, and the
response is `{success:true}`. -/
def paymentVerifySocket (reference : Option String)
    (orderData : Option OrderData) (gw : GatewayResult) (pushOk : Bool)
    (now : Nat) (store : List Order) : VerifyResult :=
  match reference with
  | none => reject 400 store false
  | some ref =>
    if ref = "" then reject 400 store false
    else
      match gw with
      | .err => reject 500 store true
      | .ok none => reject 500 store true
      | .ok (some resp) =>
        match resp.data with
        | none => reject 400 store true
        | some pd =>
          if pd.status = "success" then
            let o := socketOrder orderData ref pd.amount now
            { status := 200
            , success := true
            , store := store ++ [o]
            , events := [⟨"newOrder",
                .orderSummary o.name o.totalAmount o.reference o.createdAt
                  o.status⟩]
            , gatewayCalled := true
            , smsAttempted := false
            , smsSent := false
            , pushAttempted := true
            , pushSent := pushOk }
          else reject 400 store true

/-- The `global.io` handle consulted by src/server.js's emit guard.  No
statement of src/server.js (or any other source file) ever assigns
`global.io`, so the handle is absent. -/
def serverGlobalIo : Option Unit := none

/-- `POST /api/payment/verify` of src/server.js.  Requires truthy
`reference` and `orderData`; rejects a falsy `verifyRes.data` or
`verifyRes.data.status` with 400; a null `verifyRes.data.data` makes
`payment.status` throw, landing in the outer catch (500); on success the
order is saved, the Termii SMS and the OneSignal push are each attempted
inside their own try/catch (failures logged and swallowed), the
`"new-order"` event is emitted only when `global.io` is set, and the
response is `{success:true}`. -/
def paymentVerifyServer (reference : Option String)
    (orderData : Option OrderData) (gw : GatewayResult)
    (smsOk pushOk : Bool) (gio : Option Unit) (now : Nat)
    (store : List Order) : VerifyResult :=
  match reference, orderData with
  | some ref, some od =>
    if ref = "" then reject 400 store false
    else
      match gw with
      | .err => reject 500 store true
      | .ok none => reject 400 store true
      | .ok (some resp) =>
        if resp.status = false then reject 400 store true
        else
          match resp.data with
          | none => reject 500 store true
          | some pd =>
            if pd.status = "success" then
              let o := serverOrder od ref pd.channel now
              { status := 200
              , success := true
              , store := store ++ [o]
              , events :=
                  match gio with
                  | none => []
                  | some _ => [⟨"new-order", .fullOrder o⟩]
              , gatewayCalled := true
              , smsAttempted := true
              , smsSent := smsOk
              , pushAttempted := true
              , pushSent := pushOk }
            else reject 400 store true
  | _, _ => reject 400 store false

/-- `notifyAdminsNewOrder` of src/server.js: builds the `"newOrder"` admin
summary event.  The function is declared in the file but no route of
src/server.js calls it. -/
def notifyAdminsNewOrder (o : Order) : SocketEvent :=
  ⟨"newOrder", .adminSummary o.reference o.name o.totalAmount o.status
    o.createdAt⟩

/-- Acceptance predicate of src/SOCKET.IO's verification flow: truthy
reference, a response body whose `data` is non-null, and payment status
`"success"`. -/
def socketAccepted : Option String → GatewayResult → Prop
  | some ref, .ok (some ⟨_, some pd⟩) => ref ≠ "" ∧ pd.status = "success"
  | _, _ => False

/-- Acceptance predicate of src/server.js's verification flow: truthy
reference and orderData, truthy top-level response status, non-null
payment data, and payment status `"success"`. -/
def serverAccepted : Option String → Option OrderData → GatewayResult → Prop
  | some ref, some _, .ok (some ⟨ts, some pd⟩) =>
      ref ≠ "" ∧ ts = true ∧ pd.status = "success"
  | _, _, _ => False

/-- Result of one run of the PATCH status-update handler. -/
structure PatchResult where
  status : Nat
  store : List Order
deriving DecidableEq, Repr

/-- The update document built by `PATCH /api/orders/update/:reference` of
src/SOCKET.IO: `{ status }`, plus `deliveredAt = new Date()` when the new
status lowercases to `"delivered"`, or `dispatchedAt = new Date()` when it
lowercases to `"dispatched"`; applied to a document by `$set`. -/
def applyStatusUpdate (st : String) (now : Nat) (o : Order) : Order :=
  if jsToLower st = "delivered" then
    { o with status := st, deliveredAt := some now }
  else if jsToLower st = "dispatched" then
    { o with status := st, dispatchedAt := some now }
  else
    { o with status := st }

/-- `findOneAndUpdate`: update the first document matching the filter,
leaving every other document untouched. -/
def updateFirst (p : Order → Bool) (f : Order → Order) :
    List Order → List Order
  | [] => []
  | o :: rest => if p o then f o :: rest else o :: updateFirst p f rest

/-- `PATCH /api/orders/update/:reference` of src/SOCKET.IO.  A request
body without a `status` field makes `status.toLowerCase()` throw, landing
in the catch block (500) before any store access; otherwise the first
order with the given reference is updated (404 when none exists). -/
def updateOrderStatus (reference : String) (status : Option String)
    (now : Nat) (store : List Order) : PatchResult :=
  match status with
  | none => ⟨500, store⟩
  | some st =>
    match store.find? (fun o => o.reference == reference) with
    | none => ⟨404, store⟩
    | some _ =>
      ⟨200, updateFirst (fun o => o.reference == reference)
        (applyStatusUpdate st now) store⟩

/-- User document (`User` model used by the user routes of
src/SOCKET.IO). -/
structure User where
  name : String
  username : String
  role : String
  password : String
deriving DecidableEq, Repr

/-- The user object returned by a successful login: only name, username
and role — the structure has no password field. -/
structure UserView where
  name : String
  username : String
  role : String
deriving DecidableEq, Repr

/-- Result of `POST /api/users/login`. -/
inductive LoginResult where
  | badRequest : LoginResult
  | notFound : LoginResult
  | invalidPassword : LoginResult
  | ok : UserView → LoginResult
deriving DecidableEq, Repr

/-- HTTP status code attached to each login outcome by the handler. -/
def LoginResult.httpCode : LoginResult → Nat
  | .badRequest => 400
  | .notFound => 404
  | .invalidPassword => 401
  | .ok _ => 200

/-- `POST /api/users/login` of src/SOCKET.IO: falsy username or password →
400; unknown username → 404; stored password differs → 401; otherwise 200
with the three-field user projection. -/
def loginHandler (username password : Option String) (users : List User) :
    LoginResult :=
  match username, password with
  | some un, some pw =>
    if un = "" ∨ pw = "" then .badRequest
    else
      match users.find? (fun u => u.username == un) with
      | none => .notFound
      | some u =>
        if u.password = pw then .ok ⟨u.name, u.username, u.role⟩
        else .invalidPassword
  | _, _ => .badRequest

/-- JS `o.totalAmount || 0`: an absent amount contributes 0 (a stored 0 is
falsy too, and also contributes 0). -/
def jsOrZero : Option ℚ → ℚ
  | none => 0
  | some a => a

/-- JS comparator `(a, b) => b.createdAt - a.createdAt` keeps `a` before
`b` exactly when the difference is ≤ 0, i.e. descending `createdAt`. -/
def byCreatedDesc (a b : Order) : Bool := b.createdAt ≤ a.createdAt

/-- Response of `GET /api/admin/stats`. -/
structure AdminStats where
  totalOrders : Nat
  totalRevenue : ℚ
  pendingOrders : Nat
  processingOrders : Nat
  recentOrders : List Order
deriving DecidableEq, Repr

/-- `GET /api/admin/stats` of src/SOCKET.IO and src/server.js: length,
reduce of `totalAmount || 0`, exact-match status counts, and the first 5
orders after sorting by `createdAt` descending. -/
def adminStats (orders : List Order) : AdminStats :=
  { totalOrders := orders.length
  , totalRevenue := orders.foldl (fun sum o => sum + jsOrZero o.totalAmount) 0
  , pendingOrders := (orders.filter (fun o => o.status == "pending")).length
  , processingOrders :=
      (orders.filter (fun o => o.status == "processing")).length
  , recentOrders := (orders.mergeSort byCreatedDesc).take 5 }

/-! Concrete sample data used by witnesses and counterexamples. -/

/-- Sample client payload: Ada orders rice, claiming a total of 7000. -/
def odEx : OrderData :=
  ⟨"Ada", "ada@example.com", "+2348000000000", "12 Road", "Main", ["rice"],
    7000⟩

/-- Sample gateway payment data: success, 500000 minor units charged. -/
def pdEx : PaymentData := ⟨"success", 500000, "card", "ada@example.com"⟩

/-- Sample gateway response body wrapping `pdEx`. -/
def respEx : VerifyResponse := ⟨true, some pdEx⟩

/-- Sample stored order (used by the status-update witnesses). -/
def orderEx : Order :=
  ⟨some "Ada", some "ada@example.com", some "+2348000000000",
    some "12 Road", some "Main", ["rice"], some 7000, "PSK123", "paid", 5,
    none, none, none, none⟩

/-- Sample registered user. -/
def usersEx : List User := [⟨"Ada Obi", "ada", "admin", "pw123"⟩]

/-! Helper lemmas. -/

lemma append_singleton_ne (store : List Order) (o : Order) :
    store ++ [o] ≠ store := by
  intro h
  have hl := congrArg List.length h
  simp at hl

/-- Agreement on every order field except `status`, `deliveredAt` and
`dispatchedAt`. -/
def frameAgrees (o o' : Order) : Prop :=
  o'.name = o.name ∧ o'.email = o.email ∧ o'.phone = o.phone ∧
  o'.address = o.address ∧ o'.junction = o.junction ∧ o'.items = o.items ∧
  o'.totalAmount = o.totalAmount ∧ o'.reference = o.reference ∧
  o'.createdAt = o.createdAt ∧ o'.paymentStatus = o.paymentStatus ∧
  o'.paymentChannel = o.paymentChannel

lemma frameAgrees_refl (o : Order) : frameAgrees o o := by
  simp [frameAgrees]

lemma forall₂_frameAgrees_refl :
    ∀ l : List Order, List.Forall₂ frameAgrees l l
  | [] => List.Forall₂.nil
  | o :: rest =>
      List.Forall₂.cons (frameAgrees_refl o) (forall₂_frameAgrees_refl rest)

lemma applyStatusUpdate_frame (st : String) (now : Nat) (o : Order) :
    frameAgrees o (applyStatusUpdate st now o) := by
  unfold applyStatusUpdate
  split
  · simp [frameAgrees]
  · split <;> simp [frameAgrees]

lemma applyStatusUpdate_reference (st : String) (now : Nat) (o : Order) :
    (applyStatusUpdate st now o).reference = o.reference :=
  (applyStatusUpdate_frame st now o).2.2.2.2.2.2.2.1

lemma forall₂_updateFirst (p : Order → Bool) (f : Order → Order)
    (hf : ∀ o, frameAgrees o (f o)) :
    ∀ l : List Order, List.Forall₂ frameAgrees l (updateFirst p f l)
  | [] => List.Forall₂.nil
  | o :: rest => by
    unfold updateFirst
    by_cases h : p o
    · simp only [h, if_true]
      exact List.Forall₂.cons (hf o) (forall₂_frameAgrees_refl rest)
    · simp only [h, Bool.false_eq_true, if_false]
      exact List.Forall₂.cons (frameAgrees_refl o)
        (forall₂_updateFirst p f hf rest)

lemma find?_updateFirst (p : Order → Bool) (f : Order → Order)
    (hp : ∀ o, p o = true → p (f o) = true) :
    ∀ (l : List Order) (o : Order), l.find? p = some o →
      (updateFirst p f l).find? p = some (f o)
  | [], o, h => by simp at h
  | x :: rest, o, h => by
    unfold updateFirst
    by_cases hx : p x = true
    · rw [List.find?_cons_of_pos _ hx] at h
      injection h with h
      subst h
      rw [if_pos hx, List.find?_cons_of_pos _ (hp x hx)]
    · rw [List.find?_cons_of_neg _ hx] at h
      rw [if_neg hx, List.find?_cons_of_neg _ hx]
      exact find?_updateFirst p f hp rest o h

lemma foldl_add_map (f : Order → ℚ) :
    ∀ (l : List Order) (a : ℚ),
      l.foldl (fun s o => s + f o) a = a + (l.map f).sum
  | [], a => by simp
  | o :: rest, a => by
    rw [List.foldl_cons, foldl_add_map f rest (a + f o), List.map_cons,
      List.sum_cons]
    ring

/-- Case analysis of the src/SOCKET.IO verification flow: either the run is
one of the rejection branches (a `reject`, leaving the store untouched and
emitting nothing), or the acceptance predicate holds and exactly the new
order is appended. -/
lemma socket_run (reference : Option String) (od : Option OrderData)
    (gw : GatewayResult) (pushOk : Bool) (now : Nat) (store : List Order) :
    (¬ socketAccepted reference gw ∧ ∃ c g,
      paymentVerifySocket reference od gw pushOk now store =
        reject c store g) ∨
    (socketAccepted reference gw ∧ ∃ (ref : String) (pd : PaymentData),
      reference = some ref ∧
      (paymentVerifySocket reference od gw pushOk now store).store =
        store ++ [socketOrder od ref pd.amount now] ∧
      (paymentVerifySocket reference od gw pushOk now store).success =
        true) := by
  rcases reference with _ | ref
  · exact Or.inl ⟨by simp [socketAccepted], 400, false, rfl⟩
  · rcases gw with _ | ob
    · by_cases href : ref = ""
      · exact Or.inl ⟨by simp [socketAccepted], 400, false,
          by simp [paymentVerifySocket, href]⟩
      · exact Or.inl ⟨by simp [socketAccepted], 500, true,
          by simp [paymentVerifySocket, href]⟩
    · rcases ob with _ | ⟨ts, pdo⟩
      · by_cases href : ref = ""
        · exact Or.inl ⟨by simp [socketAccepted], 400, false,
            by simp [paymentVerifySocket, href]⟩
        · exact Or.inl ⟨by simp [socketAccepted], 500, true,
            by simp [paymentVerifySocket, href]⟩
      · rcases pdo with _ | pd
        · by_cases href : ref = ""
          · exact Or.inl ⟨by simp [socketAccepted], 400, false,
              by simp [paymentVerifySocket, href]⟩
          · exact Or.inl ⟨by simp [socketAccepted], 400, true,
              by simp [paymentVerifySocket, href]⟩
        · by_cases href : ref = ""
          · exact Or.inl ⟨by simp [socketAccepted, href], 400, false,
              by simp [paymentVerifySocket, href]⟩
          · by_cases hs : pd.status = "success"
            · exact Or.inr ⟨⟨href, hs⟩, ref, pd, rfl,
                by simp [paymentVerifySocket, href, hs],
                by simp [paymentVerifySocket, href, hs]⟩
            · exact Or.inl ⟨by simp [socketAccepted, hs], 400, true,
                by simp [paymentVerifySocket, href, hs]⟩

/-- Case analysis of the src/server.js verification flow, analogous to
`socket_run`; on acceptance the emitted events are additionally
characterised by the `global.io` handle. -/
lemma server_run (reference : Option String) (od : Option OrderData)
    (gw : GatewayResult) (smsOk pushOk : Bool) (gio : Option Unit)
    (now : Nat) (store : List Order) :
    (¬ serverAccepted reference od gw ∧ ∃ c g,
      paymentVerifyServer reference od gw smsOk pushOk gio now store =
        reject c store g) ∨
    (serverAccepted reference od gw ∧
      ∃ (ref : String) (od' : OrderData) (pd : PaymentData),
      reference = some ref ∧ od = some od' ∧
      (paymentVerifyServer reference od gw smsOk pushOk gio now store).store
        = store ++ [serverOrder od' ref pd.channel now] ∧
      (paymentVerifyServer reference od gw smsOk pushOk gio now
        store).success = true ∧
      (gio = none →
        (paymentVerifyServer reference od gw smsOk pushOk gio now
          store).events = [])) := by
  rcases reference with _ | ref
  · rcases od with _ | od
    · exact Or.inl ⟨by simp [serverAccepted], 400, false, rfl⟩
    · exact Or.inl ⟨by simp [serverAccepted], 400, false, rfl⟩
  · rcases od with _ | od
    · exact Or.inl ⟨by simp [serverAccepted], 400, false, rfl⟩
    · rcases gw with _ | ob
      · by_cases href : ref = ""
        · exact Or.inl ⟨by simp [serverAccepted], 400, false,
            by simp [paymentVerifyServer, href]⟩
        · exact Or.inl ⟨by simp [serverAccepted], 500, true,
            by simp [paymentVerifyServer, href]⟩
      · rcases ob with _ | ⟨ts, pdo⟩
        · by_cases href : ref = ""
          · exact Or.inl ⟨by simp [serverAccepted], 400, false,
              by simp [paymentVerifyServer, href]⟩
          · exact Or.inl ⟨by simp [serverAccepted], 400, true,
              by simp [paymentVerifyServer, href]⟩
        · rcases pdo with _ | pd
          · rcases ts with _ | _
            · by_cases href : ref = ""
              · exact Or.inl ⟨by simp [serverAccepted], 400, false,
                  by simp [paymentVerifyServer, href]⟩
              · exact Or.inl ⟨by simp [serverAccepted], 400, true,
                  by simp [paymentVerifyServer, href]⟩
            · by_cases href : ref = ""
              · exact Or.inl ⟨by simp [serverAccepted], 400, false,
                  by simp [paymentVerifyServer, href]⟩
              · exact Or.inl ⟨by simp [serverAccepted], 500, true,
                  by simp [paymentVerifyServer, href]⟩
          · rcases ts with _ | _
            · by_cases href : ref = ""
              · exact Or.inl ⟨by simp [serverAccepted], 400, false,
                  by simp [paymentVerifyServer, href]⟩
              · exact Or.inl ⟨by simp [serverAccepted], 400, true,
                  by simp [paymentVerifyServer, href]⟩
            · by_cases href : ref = ""
              · exact Or.inl ⟨by simp [serverAccepted, href], 400, false,
                  by simp [paymentVerifyServer, href]⟩
              · by_cases hs : pd.status = "success"
                · refine Or.inr ⟨⟨href, rfl, hs⟩, ref, od, pd, rfl, rfl,
                    by simp [paymentVerifyServer, href, hs],
                    by simp [paymentVerifyServer, href, hs], ?_⟩
                  intro hgio
                  subst hgio
                  simp [paymentVerifyServer, href, hs]
                · exact Or.inl ⟨by simp [serverAccepted, hs], 400, true,
                    by simp [paymentVerifyServer, href, hs]⟩

/-! Claim theorems. -/

/-- Claim C5: for every existing order and every status-update call, the
status field is set to the supplied value; when the new status
case-insensitively equals "delivered", `deliveredAt` is set to the current
time (which is ≥ `createdAt` since the order was created at an earlier
clock reading); when it case-insensitively equals "dispatched",
`dispatchedAt` is set and `deliveredAt` is left as it was (so it stays
unset when it was unset). -/
theorem claim_C5_update_status (ref st : String) (now : Nat)
    (store : List Order) (o : Order)
    (hfind : store.find? (fun x => x.reference == ref) = some o)
    (hclock : o.createdAt ≤ now) :
    (updateOrderStatus ref (some st) now store).status = 200 ∧
    (updateOrderStatus ref (some st) now store).store.find?
        (fun x => x.reference == ref) =
      some (applyStatusUpdate st now o) ∧
    (applyStatusUpdate st now o).status = st ∧
    (jsToLower st = "delivered" →
      (applyStatusUpdate st now o).deliveredAt = some now ∧
      o.createdAt ≤ now) ∧
    (jsToLower st = "dispatched" →
      (applyStatusUpdate st now o).dispatchedAt = some now ∧
      (applyStatusUpdate st now o).deliveredAt = o.deliveredAt ∧
      (o.deliveredAt = none →
        (applyStatusUpdate st now o).deliveredAt = none)) := by
  have hupd : (updateOrderStatus ref (some st) now store).store =
      updateFirst (fun x => x.reference == ref) (applyStatusUpdate st now)
        store := by
    simp only [updateOrderStatus, hfind]
  have hcode : (updateOrderStatus ref (some st) now store).status = 200 := by
    simp only [updateOrderStatus, hfind]
  refine ⟨hcode, ?_, ?_, ?_, ?_⟩
  · rw [hupd]
    refine find?_updateFirst _ _ ?_ store o hfind
    intro x hx
    rwa [applyStatusUpdate_reference]
  · unfold applyStatusUpdate
    split
    · rfl
    · split <;> rfl
  · intro hlow
    refine ⟨?_, hclock⟩
    unfold applyStatusUpdate
    rw [if_pos hlow]
  · intro hlow
    have hne : ¬ jsToLower st = "delivered" := by
      rw [hlow]; decide
    unfold applyStatusUpdate
    rw [if_neg hne, if_pos hlow]
    exact ⟨rfl, rfl, fun h => h⟩

/-- Claim C5 witness: dispatching the sample order stamps `dispatchedAt`
and leaves `deliveredAt` unset. -/
theorem claim_C5_witness :
    (updateOrderStatus "PSK123" (some "Dispatched") 9 [orderEx]).status =
      200 ∧
    (updateOrderStatus "PSK123" (some "Dispatched") 9 [orderEx]).store.find?
        (fun x => x.reference == "PSK123") =
      some (applyStatusUpdate "Dispatched" 9 orderEx) ∧
    (applyStatusUpdate "Dispatched" 9 orderEx).dispatchedAt = some 9 ∧
    (applyStatusUpdate "Dispatched" 9 orderEx).deliveredAt = none := by
  have h := claim_C5_update_status "PSK123" "Dispatched" 9 [orderEx] orderEx
    rfl (by decide)
  have hd := h.2.2.2.2 (by decide)
  exact ⟨h.1, h.2.1, hd.1, hd.2.2 rfl⟩

/-- Claim C8: the status-update operation changes only `status`,
`deliveredAt` and `dispatchedAt`: pointwise along the store, every other
field of every order (name, email, phone, address, junction, items,
totalAmount, reference, createdAt, and the payment bookkeeping fields) is
unchanged by the call. -/
theorem claim_C8_frame (ref : String) (status : Option String) (now : Nat)
    (store : List Order) :
    List.Forall₂ frameAgrees store
      (updateOrderStatus ref status now store).store := by
  match status with
  | none => exact forall₂_frameAgrees_refl store
  | some st =>
    simp only [updateOrderStatus]
    cases hfind : store.find? (fun o => o.reference == ref) with
    | none => exact forall₂_frameAgrees_refl store
    | some o =>
      exact forall₂_updateFirst _ _ (applyStatusUpdate_frame st now) store

/-- Claim C8 witness: updating the sample store keeps every frame field of
the stored order. -/
theorem claim_C8_witness :
    List.Forall₂ frameAgrees [orderEx]
      (updateOrderStatus "PSK123" (some "delivered") 9 [orderEx]).store :=
  claim_C8_frame "PSK123" (some "delivered") 9 [orderEx]

/-- Claim C9: a status-update request whose body has no `status` field
makes `status.toLowerCase()` throw before any store access, so the handler
answers 500 and no order document is modified. -/
theorem claim_C9_missing_status (ref : String) (now : Nat)
    (store : List Order) :
    (updateOrderStatus ref none now store).status = 500 ∧
    (updateOrderStatus ref none now store).store = store :=
  ⟨rfl, rfl⟩

/-- Claim C10: with both login fields present, an unknown username yields
404, a wrong password yields 401, and a successful login returns only the
user's name, username and role (the `UserView` projection has no password
field). -/
theorem claim_C10_login (un pw : String) (users : List User)
    (hun : un ≠ "") (hpw : pw ≠ "") :
    (users.find? (fun u => u.username == un) = none →
      loginHandler (some un) (some pw) users = .notFound ∧
      (loginHandler (some un) (some pw) users).httpCode = 404) ∧
    (∀ u : User, users.find? (fun u => u.username == un) = some u →
      u.password ≠ pw →
      loginHandler (some un) (some pw) users = .invalidPassword ∧
      (loginHandler (some un) (some pw) users).httpCode = 401) ∧
    (∀ u : User, users.find? (fun u => u.username == un) = some u →
      u.password = pw →
      loginHandler (some un) (some pw) users =
        .ok ⟨u.name, u.username, u.role⟩ ∧
      (loginHandler (some un) (some pw) users).httpCode = 200) := by
  have hno : ¬ (un = "" ∨ pw = "") := by
    rintro (h | h)
    · exact hun h
    · exact hpw h
  refine ⟨?_, ?_, ?_⟩
  · intro hfind
    simp [loginHandler, hno, hfind, LoginResult.httpCode]
  · intro u hfind hne
    simp [loginHandler, hno, hfind, hne, LoginResult.httpCode]
  · intro u hfind heq
    simp [loginHandler, hno, hfind, heq, LoginResult.httpCode]

/-- Claim C10 witness: logging in the sample user with the right password
returns the three-field projection; an unknown username is a 404. -/
theorem claim_C10_witness :
    loginHandler (some "ada") (some "pw123") usersEx =
      .ok ⟨"Ada Obi", "ada", "admin"⟩ ∧
    (loginHandler (some "ada") (some "pw123") usersEx).httpCode = 200 ∧
    loginHandler (some "nobody") (some "pw123") usersEx = .notFound := by
  have hok := (claim_C10_login "ada" "pw123" usersEx (by decide)
    (by decide)).2.2 ⟨"Ada Obi", "ada", "admin", "pw123"⟩ rfl rfl
  have hnf := (claim_C10_login "nobody" "pw123" usersEx (by decide)
    (by decide)).1 rfl
  exact ⟨hok.1, hok.2, hnf.1⟩

/-- Claim C7: the admin stats report the number of orders, the revenue sum
with a missing `totalAmount` counted as 0, the exact-match counts of
"pending" and "processing" orders, and as `recentOrders` the 5 most recent
orders by `createdAt` descending: a descending-sorted list of (up to) 5
stored orders such that the remaining orders are all no newer than any
reported one. -/
theorem claim_C7_admin_stats (orders : List Order) :
    (adminStats orders).totalOrders = orders.length ∧
    (adminStats orders).totalRevenue =
      (orders.map (fun o => jsOrZero o.totalAmount)).sum ∧
    (adminStats orders).pendingOrders =
      orders.countP (fun o => o.status == "pending") ∧
    (adminStats orders).processingOrders =
      orders.countP (fun o => o.status == "processing") ∧
    (adminStats orders).recentOrders.length = min 5 orders.length ∧
    List.Pairwise (fun a b : Order => b.createdAt ≤ a.createdAt)
      (adminStats orders).recentOrders ∧
    ∃ rest : List Order,
      orders.Perm ((adminStats orders).recentOrders ++ rest) ∧
      ∀ a ∈ (adminStats orders).recentOrders, ∀ b ∈ rest,
        b.createdAt ≤ a.createdAt := by
  have htrans : ∀ a b c : Order, byCreatedDesc a b = true →
      byCreatedDesc b c = true → byCreatedDesc a c = true := by
    intro a b c h1 h2
    simp only [byCreatedDesc, decide_eq_true_eq] at h1 h2 ⊢
    omega
  have htotal : ∀ a b : Order,
      (byCreatedDesc a b || byCreatedDesc b a) = true := by
    intro a b
    simp only [byCreatedDesc, Bool.or_eq_true, decide_eq_true_eq]
    omega
  have hsorted : List.Pairwise (fun a b : Order => b.createdAt ≤ a.createdAt)
      (orders.mergeSort byCreatedDesc) := by
    refine (List.sorted_mergeSort htrans htotal orders).imp ?_
    intro a b h
    simpa [byCreatedDesc] using h
  have hperm := List.mergeSort_perm orders byCreatedDesc
  have hrec : (adminStats orders).recentOrders =
      (orders.mergeSort byCreatedDesc).take 5 := rfl
  refine ⟨rfl, ?_, ?_, ?_, ?_, ?_, ?_⟩
  · have hrev : (adminStats orders).totalRevenue =
        orders.foldl (fun s o => s + jsOrZero o.totalAmount) 0 := rfl
    rw [hrev, foldl_add_map, zero_add]
  · have hp : (adminStats orders).pendingOrders =
        (orders.filter (fun o => o.status == "pending")).length := rfl
    rw [hp, List.countP_eq_length_filter]
  · have hp : (adminStats orders).processingOrders =
        (orders.filter (fun o => o.status == "processing")).length := rfl
    rw [hp, List.countP_eq_length_filter]
  · rw [hrec, List.length_take, hperm.length_eq]
  · rw [hrec]
    exact hsorted.sublist (List.take_sublist 5 _)
  · refine ⟨(orders.mergeSort byCreatedDesc).drop 5, ?_, ?_⟩
    · rw [hrec, List.take_append_drop]
      exact hperm.symm
    · rw [hrec]
      have hp2 : List.Pairwise
          (fun a b : Order => b.createdAt ≤ a.createdAt)
          ((orders.mergeSort byCreatedDesc).take 5 ++
            (orders.mergeSort byCreatedDesc).drop 5) := by
        rwa [List.take_append_drop]
      exact (List.pairwise_append.mp hp2).2.2

/-- Claim C7 witness: the stats of the one-order sample store. -/
theorem claim_C7_witness :
    (adminStats [orderEx]).totalOrders = [orderEx].length ∧
    List.Pairwise (fun a b : Order => b.createdAt ≤ a.createdAt)
      (adminStats [orderEx]).recentOrders :=
  ⟨(claim_C7_admin_stats [orderEx]).1,
    (claim_C7_admin_stats [orderEx]).2.2.2.2.2.1⟩

/-- Claim C1 counterexample: the src/server.js handler, on a
success-verified submission whose gateway amount is 500000 minor units but
whose client payload claims 7000, creates an order whose status is
"pending" (not "paid") and whose totalAmount is the client's 7000 (not
500000/100 = 5000). -/
theorem claim_C1_counterexample :
    (paymentVerifyServer (some "PSK123") (some odEx) (.ok (some respEx))
        true true serverGlobalIo 5 []).store.map
        (fun o => (o.status, o.totalAmount)) =
      [("pending", some (7000 : ℚ))] ∧
    ("pending" : String) ≠ "paid" ∧
    (7000 : ℚ) ≠ (500000 : ℚ) / 100 :=
  ⟨rfl, by decide, by norm_num⟩

/-- Claim C1 amended: only the src/SOCKET.IO handler behaves as claimed —
on gateway success it creates exactly one order with status "paid" and
totalAmount equal to the gateway amount divided by 100, regardless of the
client payload; the src/server.js handler instead stores the
client-supplied totalAmount and leaves the status field at the schema
default "pending". -/
theorem claim_C1_amended (ref : String) (od : Option OrderData) (ts : Bool)
    (pd : PaymentData) (pushOk : Bool) (now : Nat) (store : List Order)
    (href : ref ≠ "") (hst : pd.status = "success") :
    ((paymentVerifySocket (some ref) od (.ok (some ⟨ts, some pd⟩)) pushOk
        now store).store = store ++ [socketOrder od ref pd.amount now] ∧
      (socketOrder od ref pd.amount now).status = "paid" ∧
      (socketOrder od ref pd.amount now).totalAmount =
        some ((pd.amount : ℚ) / 100)) ∧
    (∀ (od' : OrderData) (smsOk pushOk' : Bool) (gio : Option Unit),
      (paymentVerifyServer (some ref) (some od')
          (.ok (some ⟨true, some pd⟩)) smsOk pushOk' gio now store).store =
        store ++ [serverOrder od' ref pd.channel now] ∧
      (serverOrder od' ref pd.channel now).status = "pending" ∧
      (serverOrder od' ref pd.channel now).totalAmount =
        some od'.totalAmount) := by
  constructor
  · refine ⟨?_, rfl, rfl⟩
    simp [paymentVerifySocket, href, hst]
  · intro od' smsOk pushOk' gio
    refine ⟨?_, rfl, rfl⟩
    simp [paymentVerifyServer, href, hst]

/-- Claim C1 witness: both handlers applied to the sample submission. -/
theorem claim_C1_witness :
    (paymentVerifySocket (some "PSK123") (some odEx)
        (.ok (some ⟨true, some pdEx⟩)) true 5 []).store =
      [socketOrder (some odEx) "PSK123" pdEx.amount 5] ∧
    (socketOrder (some odEx) "PSK123" pdEx.amount 5).status = "paid" ∧
    (paymentVerifyServer (some "PSK123") (some odEx)
        (.ok (some ⟨true, some pdEx⟩)) true true serverGlobalIo 5
        []).store = [serverOrder odEx "PSK123" pdEx.channel 5] ∧
    (serverOrder odEx "PSK123" pdEx.channel 5).status = "pending" := by
  have h := claim_C1_amended "PSK123" (some odEx) true pdEx true 5 []
    (by decide) rfl
  have hv := h.2 odEx true true serverGlobalIo
  exact ⟨by simpa using h.1.1, h.1.2.1, by simpa using hv.1, hv.2.1⟩

/-- Claim C2: in both flow variants an order is appended to the store iff
the run passes input validation and the gateway's verification response is
well-formed with payment status "success"; on every rejection (missing
input, invalid gateway response, non-success status, gateway error) the
store is unchanged and no broadcast event is emitted. -/
theorem claim_C2_write_iff (reference : Option String)
    (od : Option OrderData) (gw : GatewayResult) (pushOk smsOk : Bool)
    (gio : Option Unit) (now : Nat) (store : List Order) :
    ((paymentVerifySocket reference od gw pushOk now store).success =
        false →
      (paymentVerifySocket reference od gw pushOk now store).store =
        store ∧
      (paymentVerifySocket reference od gw pushOk now store).events =
        []) ∧
    ((paymentVerifySocket reference od gw pushOk now store).store ≠
        store ↔ socketAccepted reference gw) ∧
    ((paymentVerifyServer reference od gw smsOk pushOk gio now
        store).success = false →
      (paymentVerifyServer reference od gw smsOk pushOk gio now
        store).store = store ∧
      (paymentVerifyServer reference od gw smsOk pushOk gio now
        store).events = []) ∧
    ((paymentVerifyServer reference od gw smsOk pushOk gio now
        store).store ≠ store ↔ serverAccepted reference od gw) := by
  refine ⟨?_, ?_, ?_, ?_⟩
  · intro hfail
    rcases socket_run reference od gw pushOk now store with
      ⟨-, c, g, heq⟩ | ⟨-, ref, pd, -, -, hsucc⟩
    · rw [heq]
      exact ⟨rfl, rfl⟩
    · rw [hsucc] at hfail
      cases hfail
  · constructor
    · intro hne
      rcases socket_run reference od gw pushOk now store with
        ⟨-, c, g, heq⟩ | ⟨ha, -⟩
      · rw [heq] at hne
        exact absurd rfl hne
      · exact ha
    · intro ha
      rcases socket_run reference od gw pushOk now store with
        ⟨hna, -⟩ | ⟨-, ref, pd, -, hstore, -⟩
      · exact absurd ha hna
      · rw [hstore]
        exact append_singleton_ne store _
  · intro hfail
    rcases server_run reference od gw smsOk pushOk gio now store with
      ⟨-, c, g, heq⟩ | ⟨-, ref, od', pd, -, -, -, hsucc, -⟩
    · rw [heq]
      exact ⟨rfl, rfl⟩
    · rw [hsucc] at hfail
      cases hfail
  · constructor
    · intro hne
      rcases server_run reference od gw smsOk pushOk gio now store with
        ⟨-, c, g, heq⟩ | ⟨ha, -⟩
      · rw [heq] at hne
        exact absurd rfl hne
      · exact ha
    · intro ha
      rcases server_run reference od gw smsOk pushOk gio now store with
        ⟨hna, -⟩ | ⟨-, ref, od', pd, -, -, hstore, -, -⟩
      · exact absurd ha hna
      · rw [hstore]
        exact append_singleton_ne store _

/-- Claim C2 witness: a gateway "failed" status leaves the store and the
event list empty; the success-verified sample submission writes to the
store. -/
theorem claim_C2_witness :
    (paymentVerifySocket (some "PSK123") (some odEx)
        (.ok (some ⟨true, some ⟨"failed", 500000, "card", "x"⟩⟩)) true 5
        []).store = [] ∧
    (paymentVerifySocket (some "PSK123") (some odEx)
        (.ok (some ⟨true, some ⟨"failed", 500000, "card", "x"⟩⟩)) true 5
        []).events = [] ∧
    (paymentVerifyServer (some "PSK123") (some odEx) (.ok (some respEx))
        true true serverGlobalIo 5 []).store ≠ [] := by
  have h1 := (claim_C2_write_iff (some "PSK123") (some odEx)
      (.ok (some ⟨true, some ⟨"failed", 500000, "card", "x"⟩⟩)) true true
      serverGlobalIo 5 []).1 rfl
  have h2 := (claim_C2_write_iff (some "PSK123") (some odEx)
      (.ok (some respEx)) true true serverGlobalIo 5 []).2.2.2.mpr
      ⟨by decide, rfl, rfl⟩
  exact ⟨h1.1, h1.2, h2⟩

/-- Claim C3 counterexample: the src/server.js handler creates an order on
the success-verified sample submission, yet emits no event at all
(`global.io` is never assigned by the file, so the guarded
`global.io.emit("new-order", ...)` is skipped); in particular no
"newOrder" event reaches any connected dashboard session. -/
theorem claim_C3_counterexample :
    (paymentVerifyServer (some "PSK123") (some odEx) (.ok (some respEx))
        true true serverGlobalIo 5 []).store.length = 1 ∧
    (paymentVerifyServer (some "PSK123") (some odEx) (.ok (some respEx))
        true true serverGlobalIo 5 []).events = [] :=
  ⟨rfl, rfl⟩

/-- Claim C3 amended: in the src/SOCKET.IO variant, every order created by
the submission flow is broadcast as a "newOrder" event carrying the
summary (customer, amount, reference, creation timestamp, status) to every
currently connected session; in the src/server.js variant no event is
emitted, because `global.io` is never set (and even the guarded emit would
use the event name "new-order"). -/
theorem claim_C3_amended (ref : String) (od : Option OrderData) (ts : Bool)
    (pd : PaymentData) (pushOk : Bool) (now : Nat) (store : List Order)
    (sessions : List Nat) (s : Nat)
    (href : ref ≠ "") (hst : pd.status = "success")
    (hmem : s ∈ sessions) :
    (s, (⟨"newOrder",
        .orderSummary (socketOrder od ref pd.amount now).name
          (socketOrder od ref pd.amount now).totalAmount ref now
          "paid"⟩ : SocketEvent)) ∈
      deliveries sessions
        (paymentVerifySocket (some ref) od (.ok (some ⟨ts, some pd⟩))
          pushOk now store).events ∧
    (∀ (reference : Option String) (odAny : Option OrderData)
        (gw : GatewayResult) (smsOk pushOk' : Bool) (now' : Nat)
        (store' : List Order),
      (paymentVerifyServer reference odAny gw smsOk pushOk' serverGlobalIo
        now' store').events = []) := by
  constructor
  · have hev : (paymentVerifySocket (some ref) od
        (.ok (some ⟨ts, some pd⟩)) pushOk now store).events =
        [⟨"newOrder",
          .orderSummary (socketOrder od ref pd.amount now).name
            (socketOrder od ref pd.amount now).totalAmount ref now
            "paid"⟩] := by
      simp [paymentVerifySocket, href, hst, socketOrder]
    rw [hev]
    simp only [deliveries, List.mem_flatMap, List.map_cons, List.map_nil,
      List.mem_cons, List.not_mem_nil, or_false, Prod.mk.injEq]
    exact ⟨s, hmem, rfl, trivial⟩
  · intro reference odAny gw smsOk pushOk' now' store'
    rcases server_run reference odAny gw smsOk pushOk' serverGlobalIo now'
        store' with ⟨-, c, g, heq⟩ | ⟨-, ref', od', pd', -, -, -, -, hev⟩
    · rw [heq]
      rfl
    · exact hev rfl

/-- Claim C3 witness: session 7 of the connected sessions [7, 9] receives
the "newOrder" summary for the sample submission. -/
theorem claim_C3_witness :
    ((7 : Nat), (⟨"newOrder",
        .orderSummary (socketOrder (some odEx) "PSK123" pdEx.amount 5).name
          (socketOrder (some odEx) "PSK123" pdEx.amount 5).totalAmount
          "PSK123" 5 "paid"⟩ : SocketEvent)) ∈
      deliveries [7, 9]
        (paymentVerifySocket (some "PSK123") (some odEx)
          (.ok (some ⟨true, some pdEx⟩)) true 5 []).events :=
  (claim_C3_amended "PSK123" (some odEx) true pdEx true 5 [] [7, 9] 7
    (by decide) rfl (by decide)).1

/-- Claim C4 counterexample: the src/SOCKET.IO handler does not reject a
submission whose order payload is absent — with a truthy reference it
still calls the gateway and, on success, stores an order. -/
theorem claim_C4_counterexample :
    (paymentVerifySocket (some "PSK123") none (.ok (some respEx)) true 5
        []).gatewayCalled = true ∧
    (paymentVerifySocket (some "PSK123") none (.ok (some respEx)) true 5
        []).store.length = 1 :=
  ⟨rfl, rfl⟩

/-- Claim C4 amended: the src/server.js handler returns 400 with
success=false and performs no further step (no gateway call, no store
write, no event, no notification) whenever the reference is falsy or the
order payload is absent; the src/SOCKET.IO handler rejects this way only
for a missing or empty reference — an absent order payload is not
rejected. -/
theorem claim_C4_amended :
    (∀ (reference : Option String) (od : Option OrderData)
        (gw : GatewayResult) (smsOk pushOk : Bool) (gio : Option Unit)
        (now : Nat) (store : List Order),
      strTruthy reference = false ∨ od = none →
      paymentVerifyServer reference od gw smsOk pushOk gio now store =
        reject 400 store false) ∧
    (∀ (od : Option OrderData) (gw : GatewayResult) (pushOk : Bool)
        (now : Nat) (store : List Order),
      paymentVerifySocket none od gw pushOk now store =
        reject 400 store false ∧
      paymentVerifySocket (some "") od gw pushOk now store =
        reject 400 store false) := by
  constructor
  · intro reference od gw smsOk pushOk gio now store h
    rcases reference with _ | ref
    · rcases od with _ | od <;> rfl
    · rcases od with _ | od
      · rfl
      · rcases h with h | h
        · have hempty : ref = "" := by
            simpa [strTruthy] using h
          simp [paymentVerifyServer, hempty]
        · simp at h
  · intro od gw pushOk now store
    refine ⟨rfl, ?_⟩
    simp [paymentVerifySocket]

/-- Claim C4 witness: missing payload on src/server.js and missing
reference on src/SOCKET.IO are both terminal 400 rejections. -/
theorem claim_C4_witness :
    paymentVerifyServer (some "PSK123") none (.ok (some respEx)) true true
      serverGlobalIo 5 [] = reject 400 [] false ∧
    paymentVerifySocket none (some odEx) (.ok (some respEx)) true 5 [] =
      reject 400 [] false :=
  ⟨claim_C4_amended.1 (some "PSK123") none (.ok (some respEx)) true true
      serverGlobalIo 5 [] (Or.inr rfl),
    (claim_C4_amended.2 (some odEx) (.ok (some respEx)) true 5 []).1⟩

/-- Claim C6: once src/server.js's order write succeeds, the SMS and push
calls are both attempted whatever their outcomes (`smsOk`, `pushOk`), and
neither outcome alters the response's success field, the status code, or
the persisted store — the right-hand sides below do not mention the
outcomes at all. -/
theorem claim_C6_notifications (ref : String) (od : OrderData)
    (pd : PaymentData) (smsOk pushOk : Bool) (gio : Option Unit)
    (now : Nat) (store : List Order)
    (href : ref ≠ "") (hst : pd.status = "success") :
    (paymentVerifyServer (some ref) (some od)
        (.ok (some ⟨true, some pd⟩)) smsOk pushOk gio now store).success =
      true ∧
    (paymentVerifyServer (some ref) (some od)
        (.ok (some ⟨true, some pd⟩)) smsOk pushOk gio now store).status =
      200 ∧
    (paymentVerifyServer (some ref) (some od)
        (.ok (some ⟨true, some pd⟩)) smsOk pushOk gio now store).store =
      store ++ [serverOrder od ref pd.channel now] ∧
    (paymentVerifyServer (some ref) (some od)
        (.ok (some ⟨true, some pd⟩)) smsOk pushOk gio now
        store).smsAttempted = true ∧
    (paymentVerifyServer (some ref) (some od)
        (.ok (some ⟨true, some pd⟩)) smsOk pushOk gio now
        store).pushAttempted = true := by
  refine ⟨?_, ?_, ?_, ?_, ?_⟩ <;> simp [paymentVerifyServer, href, hst]

/-- Claim C6 witness: with both notification calls failing, the sample
order is still persisted, both calls were attempted, and the response
still reports success. -/
theorem claim_C6_witness :
    (paymentVerifyServer (some "PSK123") (some odEx)
        (.ok (some ⟨true, some pdEx⟩)) false false serverGlobalIo 5
        []).success = true ∧
    (paymentVerifyServer (some "PSK123") (some odEx)
        (.ok (some ⟨true, some pdEx⟩)) false false serverGlobalIo 5
        []).store = [serverOrder odEx "PSK123" pdEx.channel 5] ∧
    (paymentVerifyServer (some "PSK123") (some odEx)
        (.ok (some ⟨true, some pdEx⟩)) false false serverGlobalIo 5
        []).smsAttempted = true ∧
    (paymentVerifyServer (some "PSK123") (some odEx)
        (.ok (some ⟨true, some pdEx⟩)) false false serverGlobalIo 5
        []).pushAttempted = true := by
  have h := claim_C6_notifications "PSK123" odEx pdEx false false
    serverGlobalIo 5 [] (by decide) rfl
  exact ⟨h.1, by simpa using h.2.2.1, h.2.2.2.1, h.2.2.2.2⟩

end Restaurant
